import Mathlib

/-!
Verification of the restify-prom-bundle middleware
(src/src/preMiddleware.ts) against its specification.

The single source file is shallowly embedded below.  JavaScript values
that the code dispatches on dynamically (the `exclude` option, route spec
fields, the response object at finish time) become tagged unions; the
module-level mutable exclusion cache becomes explicit state passing; a
JavaScript function call that may throw returns in `Except String`.
The `PathLimit` class is imported by the source from './PathLimit', a
file that is not part of the sources at hand, so it is modelled from the
specification (section 4.2).
-/

set_option autoImplicit false

namespace RestifyPromBundle

/-- A JavaScript regular-expression value as the middleware uses it: the
`source` and `flags` strings that determine its standard string form
`/source/flags`, together with its `test` method.  The regex engine
itself is outside the embedded code, so `test` is an arbitrary boolean
function on strings. -/
structure JSRegExp where
  source : String
  flags : String
  test : String → Bool

/-- The standard JavaScript stringification of a regular expression,
`"/" + source + "/" + flags`, as produced by the template-literal
interpolation at preMiddleware.ts line 217. -/
def JSRegExp.jsToString (r : JSRegExp) : String :=
  "/" ++ r.source ++ "/" ++ r.flags

/-- The dynamically typed value held by the `exclude` configuration
option: a string, an array of strings, a RegExp, a function, or any
other JavaScript value, of which only truthiness matters to the code.
A JavaScript function call can throw, so the predicate returns in
`Except String`; the source coerces its result with `!!` (line 88),
which is folded into the returned `Bool`. -/
inductive ExcludeVal where
  | undef
  | str (s : String)
  | arr (l : List String)
  | regexp (r : JSRegExp)
  | func (f : String → Except String Bool)
  | otherTruthy
  | otherFalsy

/-- JavaScript truthiness of an `exclude` value: `undefined`, the empty
string and other falsy primitives (null, false, 0, NaN) are falsy;
arrays, RegExp objects and functions are objects, hence truthy. -/
def ExcludeVal.truthy : ExcludeVal → Bool
  | .undef => false
  | .str s => !(s == "")
  | .arr _ => true
  | .regexp _ => true
  | .func _ => true
  | .otherTruthy => true
  | .otherFalsy => false

/-- The module-level `shouldMeasureExcludedCache` object (line 66): a
plain JavaScript object used as a map from path strings to booleans.
Own-property lookup and property assignment are modelled by an
association list in which lookup returns the first matching key. -/
abbrev Cache := List (String × Bool)

/-- Lines 82-91: the chain of disjoint runtime type tests computing
`isExcluded` on a cache miss (`Array.isArray` with `indexOf`, then
`instanceof RegExp` with `test`, then `typeof === 'function'` with the
coerced call).  The tests are mutually exclusive, so the chain becomes a
match on the tagged value; a truthy value of any other shape falls
through all three tests and is not excluded.  Only the function call can
throw. -/
def excludedEval (exclude : ExcludeVal) (path : String) : Except String Bool :=
  match exclude with
  | .arr l => .ok (l.contains path)
  | .regexp r => .ok (r.test path)
  | .func f => f path
  | _ => .ok false

/-- Lines 72-99: `shouldMeasure(path, config)`.  Returns the measure
decision together with the updated cache, or an error when the user
predicate throws (the source has no try/catch around the call at line
88). -/
def shouldMeasure (path : String) (exclude : ExcludeVal) (cache : Cache) :
    Except String (Bool × Cache) :=
  if exclude.truthy then
    match cache.lookup path with
    | some cached => .ok (!cached, cache)
    | none =>
      match excludedEval exclude path with
      | .error e => .error e
      | .ok isExcluded => .ok (!isExcluded, (path, isExcluded) :: cache)
  else
    .ok (true, cache)

/-- The value held by the `route` configuration option: a string, the
boolean `false`, or any other value. -/
inductive RouteVal where
  | str (s : String)
  | fls
  | other
deriving DecidableEq

/-- The value held by the `promBlacklist` option: an array of strings or
any non-array value. -/
inductive BlacklistVal where
  | arr (l : List String)
  | other
deriving DecidableEq

/-- The value held by the `promDefaultDelay` option: a number or any
non-number value.  (NaN is not modelled.) -/
inductive DelayVal where
  | num (n : Int)
  | other
deriving DecidableEq

/-- A user-supplied configuration object; `none` means the key is
absent.  `maxPathsToCount` is accepted at runtime (the default
configuration at lines 47-52 carries it). -/
structure UserConfig where
  route : Option RouteVal := none
  exclude : Option ExcludeVal := none
  promBlacklist : Option BlacklistVal := none
  promDefaultDelay : Option DelayVal := none
  maxPathsToCount : Option Nat := none

/-- The configuration after `Object.assign({}, defaultConfig, userConfig)`
at lines 110-114: defaults `route = "/metrics"`, `maxPathsToCount = 100`,
`promDefaultDelay = 1000`, `promBlacklist = []`; `exclude` has no
default. -/
structure MergedConfig where
  route : RouteVal
  exclude : ExcludeVal
  promBlacklist : BlacklistVal
  promDefaultDelay : DelayVal
  maxPathsToCount : Nat

/-- The merge of the defaults (lines 47-52) with a user configuration. -/
def mergeConfig (u : UserConfig) : MergedConfig where
  route := u.route.getD (.str "/metrics")
  exclude := u.exclude.getD .undef
  promBlacklist := u.promBlacklist.getD (.arr [])
  promDefaultDelay := u.promDefaultDelay.getD (.num 1000)
  maxPathsToCount := u.maxPathsToCount.getD 100

/-- Lines 121-123: a string `exclude` value is normalized to a
single-element array; every other value is left as is. -/
def normalizeExclude : ExcludeVal → ExcludeVal
  | .str s => .arr [s]
  | e => e

/-- Whether an `exclude` value passes the shape test at lines 124-130:
`Array.isArray` or `instanceof RegExp` or `typeof === 'function'`. -/
def excludeShapeOk : ExcludeVal → Bool
  | .arr _ => true
  | .regexp _ => true
  | .func _ => true
  | _ => false

/-- Lines 115-143 of `checkConfig`: the validation of the merged
configuration, in source order: the `route` check at lines 115-120, the
string normalization of `exclude` at lines 121-123, the `exclude` shape
check at lines 124-134 (guarded by the truthiness of `config.exclude`),
the `promBlacklist` array check at lines 135-137, and the
`promDefaultDelay` check at lines 138-140.  A thrown TypeError is an
`error` result. -/
def validateConfig (config : MergedConfig) : Except String MergedConfig :=
  if (match config.route with
      | .fls => false
      | .str s => s == ""
      | .other => true) then
    .error "route option for restify-prom-bundle.middleware() must be a non empty string or false"
  else
    let exclude' := normalizeExclude config.exclude
    if exclude'.truthy && !(excludeShapeOk exclude') then
      .error "exclude option for restify-prom-bundle.middleware() must be string or string array or RegExp or Function"
    else
      match config.promBlacklist with
      | .other =>
        .error "promBlacklist option for restify-prom-bundle.middleware() must be an array"
      | .arr _ =>
        match config.promDefaultDelay with
        | .num n =>
          if n < 1000 then
            .error "promDefaultDelay option for restify-prom-bundle.middleware() must be number at least 1000"
          else
            .ok { config with exclude := exclude' }
        | .other =>
          .error "promDefaultDelay option for restify-prom-bundle.middleware() must be number at least 1000"

/-- Lines 104-144: `checkConfig` merges the defaults into the user
configuration (lines 110-114) and then validates the result. -/
def checkConfig (u : UserConfig) : Except String MergedConfig :=
  validateConfig (mergeConfig u)

/-- Whether an `Except` result is a success, i.e. the call did not
throw. -/
def exceptOk {ε α : Type _} : Except ε α → Bool
  | .ok _ => true
  | .error _ => false

/-- The condition under which claim C8 says construction must reject the
`exclude` option: present but, after string normalization, not an array,
pattern, or function.  Written from the claim's words for comparison
with `checkConfig`; not part of the embedded code. -/
def excludePresentNotShape (u : UserConfig) : Bool :=
  match u.exclude with
  | none => false
  | some e => !(excludeShapeOk (normalizeExclude e))

/-- The amended acceptance condition for a merged configuration: route a
non-empty string or exactly false; exclude (after string normalization)
falsy or of an accepted shape; promBlacklist an array; promDefaultDelay
a number at least 1000.  Written from the amended claim's words, to be
compared with `validateConfig`. -/
def validationOk (m : MergedConfig) : Bool :=
  (match m.route with
   | .fls => true
   | .str s => !(s == "")
   | .other => false) &&
  !((normalizeExclude m.exclude).truthy &&
      !(excludeShapeOk (normalizeExclude m.exclude))) &&
  (match m.promBlacklist with
   | .arr _ => true
   | .other => false) &&
  (match m.promDefaultDelay with
   | .num n => !(decide (n < 1000))
   | .other => false)

/-- The bundle metrics object built by `initMetrics` (lines 149-167); we
track which instruments are present on it.  `initMetrics` always assigns
both `requestHistogram` and `requestCounter`. -/
structure IBundleMetrics where
  requestHistogram : Bool
  requestCounter : Bool
deriving DecidableEq

/-- Lines 149-167: `initMetrics` creates both instruments. -/
def initMetrics : IBundleMetrics :=
  { requestHistogram := true, requestCounter := true }

/-- Line 239 reads `metrics.requestCounte` - note the missing final `r`.
No code ever assigns a `requestCounte` property on the metrics object
(`initMetrics` sets only `requestHistogram` and `requestCounter`), so in
JavaScript this property read evaluates to `undefined`, which is falsy. -/
def IBundleMetrics.requestCounte (_ : IBundleMetrics) : Bool := false

/-- A route path template as found in `route.spec.path` or
`route.spec.url`: a string or a RegExp object. -/
inductive PathTemplate where
  | str (s : String)
  | pattern (r : JSRegExp)

/-- JavaScript truthiness of a spec field: an absent field is
`undefined` (falsy), the empty string is falsy, any RegExp object is
truthy. -/
def templateTruthy : Option PathTemplate → Bool
  | none => false
  | some (.str s) => !(s == "")
  | some (.pattern _) => true

/-- A route descriptor as consumed at line 213: `route.spec.path` and
`route.spec.url`, either of which may be absent. -/
structure Route where
  specPath : Option PathTemplate
  specUrl : Option PathTemplate

/-- Line 213: `route.spec.path || route.spec.url` - the left operand when
it is truthy, otherwise the right one, whatever it is. -/
def Route.routePath (rt : Route) : Option PathTemplate :=
  if templateTruthy rt.specPath then rt.specPath else rt.specUrl

/-- Lines 207-219: the Resolved Path.  When route lookup failed the raw
request path (`req.path()`) is used verbatim; when it succeeded, a RegExp
template is interpolated into the template literal at line 217, giving
`RegExp(` followed by the RegExp's standard string form and `)`, and any
other template value is converted with `.toString()`.  `none` models the
JavaScript TypeError of calling `.toString()` on `undefined` when
neither spec field holds a value. -/
def resolvePath (routeResult : Option Route) (rawPath : String) : Option String :=
  match routeResult with
  | none => some rawPath
  | some rt =>
    match rt.routePath with
    | none => none
    | some (.pattern r) => some ("RegExp(" ++ r.jsToString ++ ")")
    | some (.str s) => some s

/-- The Resolved Path as the claim words it: on success, the route's path
template converted to a string, or, for a pattern template, the string
`RegExp(` followed by the pattern's source and `)`; on failure, the raw
incoming path verbatim.  Written from the claim's words, to be compared
with `resolvePath`; it is not part of the embedded code. -/
def claimResolvedPath (routeResult : Option Route) (rawPath : String) : Option String :=
  match routeResult with
  | none => some rawPath
  | some rt =>
    match rt.routePath with
    | none => none
    | some (.pattern r) => some ("RegExp(" ++ r.source ++ ")")
    | some (.str s) => some s

/-- Modelled from the spec: the `PathLimit` class imported at line 6 from
'./PathLimit', whose source file is not among the sources at hand.
Spec 4.2: constructed with `maxDistinctPaths : integer >= 0`, it
maintains the Admitted Path Set. -/
structure PathLimit where
  maxPaths : Nat
  admitted : List String
deriving DecidableEq

/-- Modelled from the spec: a freshly constructed limiter with an empty
Admitted Path Set. -/
def PathLimit.init (n : Nat) : PathLimit :=
  { maxPaths := n, admitted := [] }

/-- Modelled from the spec (4.2), under the method name the middleware
calls at line 239: if `path` is already a member, return `true` with no
growth; if it is new and the set is below capacity, insert it and return
`true`; if it is new and the set is at capacity, return `false` without
inserting. -/
def PathLimit.registerPath (pl : PathLimit) (path : String) : Bool × PathLimit :=
  if pl.admitted.contains path then
    (true, pl)
  else if pl.admitted.length < pl.maxPaths then
    (true, { pl with admitted := path :: pl.admitted })
  else
    (false, pl)

/-- A sequence of `registerPath` calls, threading the limiter state. -/
def runRegister (pl : PathLimit) : List String → PathLimit
  | [] => pl
  | p :: ps => runRegister (pl.registerPath p).2 ps

/-- What one run of the per-request handler does: the Resolved Path it
used, whether the duration timer was started (and its finish callback
registered), whether a counter finish callback was registered, and the
resulting cache and limiter states. -/
structure HandlerResult where
  path : String
  timerStarted : Bool
  counterRegistered : Bool
  cache : Cache
  limiter : PathLimit
deriving DecidableEq

/-- Lines 207-259: the body of the `server.router.find` callback of the
returned handler.  `routeResult` is `some` route on lookup success and
`none` on `routeFindError`.  The path is resolved (lines 209-219), the
exclusion test runs once (line 222); inside it, the timer block at lines
224-237 runs when the histogram instrument is present and the route
resolved, and the counter block at lines 238-249 is guarded by
`metrics.requestCounte && pathLimiter.registerPath(path)` - the
misspelled property read is falsy, so `&&` short-circuits and
`registerPath` is not called. -/
def handleRequest (exclude : ExcludeVal) (metrics : IBundleMetrics)
    (limiter : PathLimit) (routeResult : Option Route) (rawPath : String)
    (cache : Cache) : Except String HandlerResult :=
  match resolvePath routeResult rawPath with
  | none => .error "TypeError: cannot read property toString of undefined"
  | some path =>
    match shouldMeasure path exclude cache with
    | .error e => .error e
    | .ok (measure, cache') =>
      if measure then
        .ok { path := path,
              timerStarted := metrics.requestHistogram && routeResult.isSome,
              counterRegistered :=
                metrics.requestCounte && (limiter.registerPath path).1,
              cache := cache',
              limiter :=
                if metrics.requestCounte then (limiter.registerPath path).2
                else limiter }
      else
        .ok { path := path, timerStarted := false, counterRegistered := false,
              cache := cache', limiter := limiter }

/-- The response object as the on-finished callbacks see it (lines
230-236 and 240-248): possibly absent, with a possibly absent numeric
status code. -/
structure FinishResponse where
  statusCode : Option Nat
deriving DecidableEq

/-- Lines 232 and 244: `(res2 && res2.statusCode) ? res2.statusCode : 0`.
The status code is used when the response object and its status code are
both truthy (a status code of 0 is falsy), and `0` otherwise. -/
def finishStatusCode (res2 : Option FinishResponse) : Nat :=
  match res2 with
  | none => 0
  | some r =>
    match r.statusCode with
    | none => 0
    | some n => if n == 0 then 0 else n

/-- The label set of the counter finish callback (lines 241-245). -/
structure CounterLabels where
  path : String
  method : String
  status_code : Nat
deriving DecidableEq

/-- Lines 241-245: the labels the counter callback would increment with. -/
def counterFinishLabels (path method : String) (res2 : Option FinishResponse) :
    CounterLabels :=
  { path := path, method := method, status_code := finishStatusCode res2 }

/-- What `preMiddleware` construction produces on success. -/
structure Setup where
  config : MergedConfig
  limiter : PathLimit
  metrics : IBundleMetrics

/-- Lines 172-197: `preMiddleware` construction.  Line 179 reassigns the
module-level cache to a fresh empty object before anything else runs, so
the returned module cache is empty even when construction then throws;
the server-handle check at lines 180-184 is abstracted to a boolean;
`checkConfig` runs at line 185; the limiter is built with
`config.maxPathsToCount` at line 192 and the metrics at line 197. -/
def preMiddleware (serverOk : Bool) (u : UserConfig) (_moduleCache : Cache) :
    Cache × Except String Setup :=
  let newCache : Cache := []
  if !serverOk then
    (newCache,
     .error "restify-prom-bundle.middleware() must take a restify server instance as first argument")
  else
    match checkConfig u with
    | .error e => (newCache, .error e)
    | .ok config =>
      (newCache,
       .ok { config := config,
             limiter := PathLimit.init config.maxPathsToCount,
             metrics := initMetrics })

/-! Helper lemmas about the limiter. -/

theorem registerPath_maxPaths (pl : PathLimit) (p : String) :
    ((pl.registerPath p).2).maxPaths = pl.maxPaths := by
  unfold PathLimit.registerPath
  split
  · rfl
  · split <;> rfl

theorem registerPath_length_le (pl : PathLimit) (p : String)
    (h : pl.admitted.length ≤ pl.maxPaths) :
    ((pl.registerPath p).2).admitted.length ≤ pl.maxPaths := by
  unfold PathLimit.registerPath
  split
  · exact h
  · split
    · next hlt => simpa using hlt
    · exact h

theorem registerPath_mono (pl : PathLimit) (p q : String)
    (h : pl.admitted.contains q = true) :
    ((pl.registerPath p).2).admitted.contains q = true := by
  unfold PathLimit.registerPath
  split
  · exact h
  · split
    · simpa using Or.inr h
    · exact h

theorem runRegister_inv (seq : List String) (pl : PathLimit)
    (h : pl.admitted.length ≤ pl.maxPaths) :
    (runRegister pl seq).maxPaths = pl.maxPaths ∧
    (runRegister pl seq).admitted.length ≤ pl.maxPaths := by
  induction seq generalizing pl with
  | nil => exact ⟨rfl, h⟩
  | cons p ps ih =>
    have h1 := registerPath_maxPaths pl p
    have h2 := registerPath_length_le pl p h
    have h3 := ih (pl.registerPath p).2 (by rw [h1]; exact h2)
    constructor
    · show (runRegister (pl.registerPath p).2 ps).maxPaths = pl.maxPaths
      rw [h3.1, h1]
    · show (runRegister (pl.registerPath p).2 ps).admitted.length ≤ pl.maxPaths
      rw [← h1]
      exact h3.2

theorem runRegister_mono (seq : List String) (pl : PathLimit) (q : String)
    (h : pl.admitted.contains q = true) :
    (runRegister pl seq).admitted.contains q = true := by
  induction seq generalizing pl with
  | nil => exact h
  | cons p ps ih => exact ih (pl.registerPath p).2 (registerPath_mono pl p q h)

/-! Helper lemmas evaluating `shouldMeasure` in its three regimes. -/

theorem shouldMeasure_falsy (p : String) (ex : ExcludeVal) (c : Cache)
    (ht : ex.truthy = false) :
    shouldMeasure p ex c = .ok (true, c) := by
  simp [shouldMeasure, ht]

theorem shouldMeasure_hit (p : String) (ex : ExcludeVal) (c : Cache)
    (cached : Bool) (ht : ex.truthy = true) (hl : c.lookup p = some cached) :
    shouldMeasure p ex c = .ok (!cached, c) := by
  simp [shouldMeasure, ht, hl]

theorem shouldMeasure_miss_ok (p : String) (ex : ExcludeVal) (c : Cache)
    (e : Bool) (ht : ex.truthy = true) (hl : c.lookup p = none)
    (hx : excludedEval ex p = .ok e) :
    shouldMeasure p ex c = .ok (!e, (p, e) :: c) := by
  simp [shouldMeasure, ht, hl, hx]

theorem shouldMeasure_miss_err (p : String) (ex : ExcludeVal) (c : Cache)
    (s : String) (ht : ex.truthy = true) (hl : c.lookup p = none)
    (hx : excludedEval ex p = .error s) :
    shouldMeasure p ex c = .error s := by
  simp [shouldMeasure, ht, hl, hx]

/-- A successful call with a truthy exclusion leaves the queried path
cached with the decision it returned. -/
theorem shouldMeasure_ok_spread (p : String) (ex₁ ex₂ : ExcludeVal) (c : Cache)
    (r : Bool) (c' : Cache) (ht₁ : ex₁.truthy = true) (ht₂ : ex₂.truthy = true)
    (h : shouldMeasure p ex₁ c = .ok (r, c')) :
    shouldMeasure p ex₂ c' = .ok (r, c') := by
  cases hl : c.lookup p with
  | some cached =>
    rw [shouldMeasure_hit p ex₁ c cached ht₁ hl] at h
    simp only [Except.ok.injEq, Prod.mk.injEq] at h
    obtain ⟨hr, hc⟩ := h
    subst hc
    subst hr
    exact shouldMeasure_hit p ex₂ c cached ht₂ hl
  | none =>
    cases hx : excludedEval ex₁ p with
    | error s =>
      rw [shouldMeasure_miss_err p ex₁ c s ht₁ hl hx] at h
      exact Except.noConfusion h
    | ok e =>
      rw [shouldMeasure_miss_ok p ex₁ c e ht₁ hl hx] at h
      simp only [Except.ok.injEq, Prod.mk.injEq] at h
      obtain ⟨hr, hc⟩ := h
      subst hc
      subst hr
      exact shouldMeasure_hit p ex₂ ((p, e) :: c) e ht₂ (by simp [List.lookup])

/-! The claims. -/

/-- C1: the claim fails on the code.  Line 239 guards the counter block
with the misspelled property read `metrics.requestCounte`, which is never
assigned and therefore `undefined` (falsy), so the `&&` short-circuits:
the counter finish callback is never registered and the limiter is never
consulted.  At the concrete request GET /does-not-exist with no matching
route and the default configuration (no exclusion, fresh limiter of
capacity 100, fresh cache), the handler registers no counter callback
and leaves the limiter untouched, even though the limiter would have
admitted the path. -/
theorem C1_counter_never_registered :
    handleRequest .undef initMetrics (PathLimit.init 100) none "/does-not-exist" [] =
      .ok { path := "/does-not-exist", timerStarted := false,
            counterRegistered := false, cache := [],
            limiter := PathLimit.init 100 } ∧
    ((PathLimit.init 100).registerPath "/does-not-exist").1 = true := by
  exact ⟨rfl, rfl⟩

/-- C2: on first encounter of a path (no cached decision), shouldMeasure
returns false exactly when the path is excluded, according to the shape
of the configured exclusion: (a) membership in the literal list, (b) the
regular expression matching the path, (c) the predicate returning a
truthy value; with no exclusion configured it returns true. -/
theorem C2_first_encounter_exclusion (p : String) (c : Cache)
    (h : c.lookup p = none) :
    shouldMeasure p .undef c = .ok (true, c) ∧
    (∀ l : List String,
      shouldMeasure p (.arr l) c = .ok (!(l.contains p), (p, l.contains p) :: c)) ∧
    (∀ r : JSRegExp,
      shouldMeasure p (.regexp r) c = .ok (!(r.test p), (p, r.test p) :: c)) ∧
    (∀ (f : String → Except String Bool) (b : Bool), f p = .ok b →
      shouldMeasure p (.func f) c = .ok (!b, (p, b) :: c)) := by
  refine ⟨rfl, ?_, ?_, ?_⟩
  · intro l
    simp [shouldMeasure, excludedEval, ExcludeVal.truthy, h]
  · intro r
    simp [shouldMeasure, excludedEval, ExcludeVal.truthy, h]
  · intro f b hf
    simp [shouldMeasure, excludedEval, ExcludeVal.truthy, h, hf]

/-- C2 witness: with a fresh cache and the literal exclusion list
containing only /health, the path /health is excluded. -/
theorem C2_witness :
    shouldMeasure "/health" (.arr ["/health"]) [] =
      .ok (false, [("/health", true)]) :=
  (C2_first_encounter_exclusion "/health" [] rfl).2.1 ["/health"]

/-- C3: the limiter (modelled from the spec, its source file being absent)
satisfies the claimed invariants: starting from a fresh instance the
admitted set never exceeds capacity under any call sequence; a member
path is re-admitted with no growth; a new path below capacity is
inserted and admitted; a new path at capacity is refused without
insertion; and membership is monotonic under any further call
sequence. -/
theorem C3_pathLimit_invariants :
    (∀ (n : Nat) (seq : List String),
        (runRegister (PathLimit.init n) seq).admitted.length ≤ n) ∧
    (∀ (pl : PathLimit) (p : String),
        (pl.admitted.contains p = true → pl.registerPath p = (true, pl)) ∧
        (pl.admitted.contains p = false →
          pl.admitted.length < pl.maxPaths →
          pl.registerPath p = (true, { pl with admitted := p :: pl.admitted })) ∧
        (pl.admitted.contains p = false →
          ¬ pl.admitted.length < pl.maxPaths →
          pl.registerPath p = (false, pl))) ∧
    (∀ (pl : PathLimit) (q : String) (seq : List String),
        pl.admitted.contains q = true →
        (runRegister pl seq).admitted.contains q = true) := by
  refine ⟨?_, ?_, ?_⟩
  · intro n seq
    exact (runRegister_inv seq (PathLimit.init n) (by simp [PathLimit.init])).2
  · intro pl p
    refine ⟨?_, ?_, ?_⟩
    · intro h
      have h' : p ∈ pl.admitted := by simpa using h
      simp [PathLimit.registerPath, h']
    · intro h hlt
      have h' : p ∉ pl.admitted := by simpa using h
      simp [PathLimit.registerPath, h', hlt]
    · intro h hge
      have h' : p ∉ pl.admitted := by simpa using h
      simp [PathLimit.registerPath, h', hge]
  · intro pl q seq h
    exact runRegister_mono seq pl q h

/-- C3 witness: the spec's scenario at capacity 2 - /a is admitted by
insertion into the fresh limiter, and the admitted set stays within the
bound after the call sequence /a, /b, /c, /a. -/
theorem C3_witness :
    (PathLimit.init 2).registerPath "/a" =
      (true, { maxPaths := 2, admitted := ["/a"] }) ∧
    (runRegister (PathLimit.init 2) ["/a", "/b", "/c", "/a"]).admitted.length ≤ 2 := by
  constructor
  · exact (C3_pathLimit_invariants.2.1 (PathLimit.init 2) "/a").2.1 rfl (by decide)
  · exact C3_pathLimit_invariants.1 2 ["/a", "/b", "/c", "/a"]

/-- C4: for a handler built with the metrics `initMetrics` creates, the
duration timer is started (histogram finish callback registered) exactly
when route resolution succeeded and the resolved path is not excluded;
in particular a request whose route resolution failed is never timed. -/
theorem C4_timer_iff_resolved_not_excluded (exclude : ExcludeVal)
    (pl : PathLimit) (routeResult : Option Route) (rawPath : String)
    (c : Cache) (res : HandlerResult)
    (h : handleRequest exclude initMetrics pl routeResult rawPath c = .ok res) :
    (∃ (m : Bool) (c' : Cache),
        shouldMeasure res.path exclude c = .ok (m, c') ∧
        res.timerStarted = (routeResult.isSome && m)) ∧
    (routeResult = none → res.timerStarted = false) := by
  unfold handleRequest at h
  cases hr : resolvePath routeResult rawPath with
  | none =>
    simp only [hr] at h
    exact Except.noConfusion h
  | some path =>
    simp only [hr] at h
    cases hm : shouldMeasure path exclude c with
    | error e =>
      simp only [hm] at h
      exact Except.noConfusion h
    | ok pr =>
      obtain ⟨m, c'⟩ := pr
      simp only [hm] at h
      split at h
      · next hmeas =>
        subst hmeas
        simp only [Except.ok.injEq] at h
        subst h
        refine ⟨⟨true, c', hm, ?_⟩, ?_⟩
        · show (initMetrics.requestHistogram && routeResult.isSome) =
            (routeResult.isSome && true)
          simp [initMetrics]
        · intro hnone
          subst hnone
          rfl
      · next hmeas =>
        have hm' : m = false := by
          cases m
          · rfl
          · exact absurd rfl hmeas
        subst hm'
        simp only [Except.ok.injEq] at h
        subst h
        exact ⟨⟨false, c', hm, by simp⟩, fun _ => rfl⟩

/-- C4 witness: a request whose route resolved to the template
/users/:id under no exclusion starts the timer; the hypotheses are
discharged at the concrete input. -/
theorem C4_witness :
    ∃ (m : Bool) (c' : Cache),
      shouldMeasure "/users/:id" .undef [] = .ok (m, c') ∧
      true = ((some (Route.mk (some (.str "/users/:id")) none)).isSome && m) := by
  have h := (C4_timer_iff_resolved_not_excluded .undef (PathLimit.init 0)
      (some (Route.mk (some (.str "/users/:id")) none)) "/users/7" []
      { path := "/users/:id", timerStarted := true, counterRegistered := false,
        cache := [], limiter := PathLimit.init 0 } rfl).1
  exact h

/-- C5 counterexample: for a route whose template is the pattern object
with source and flags of the regular expression written /^\/x$/i, the
code interpolates the RegExp into a template literal, producing
`RegExp(` followed by its standard string form `/source/flags`, not
`RegExp(` followed by its source as the claim states: the two strings
differ at the concrete input. -/
theorem C5_counterexample :
    resolvePath
        (some (Route.mk
          (some (.pattern (JSRegExp.mk "^\\/x$" "i" (fun _ => false)))) none))
        "/raw"
      = some "RegExp(/^\\/x$/i)" ∧
    claimResolvedPath
        (some (Route.mk
          (some (.pattern (JSRegExp.mk "^\\/x$" "i" (fun _ => false)))) none))
        "/raw"
      = some "RegExp(^\\/x$)" ∧
    ("RegExp(/^\\/x$/i)" : String) ≠ "RegExp(^\\/x$)" := by
  refine ⟨rfl, rfl, ?_⟩
  decide

/-- C5 amended: exactly one Resolved Path is computed per request - the
raw incoming path verbatim when route resolution failed; the template
itself when the route's picked template (spec.path, or spec.url when
spec.path is falsy) is a string; and, when it is a pattern object, the
string `RegExp(` followed by the pattern's standard string form (slash,
source, slash, flags) and `)`. -/
theorem C5_resolved_path (rawPath : String) :
    resolvePath none rawPath = some rawPath ∧
    (∀ (rt : Route) (s : String), rt.routePath = some (.str s) →
        resolvePath (some rt) rawPath = some s) ∧
    (∀ (rt : Route) (r : JSRegExp), rt.routePath = some (.pattern r) →
        resolvePath (some rt) rawPath =
          some ("RegExp(" ++ ("/" ++ r.source ++ "/" ++ r.flags) ++ ")")) := by
  refine ⟨rfl, ?_, ?_⟩
  · intro rt s hrt
    simp [resolvePath, hrt]
  · intro rt r hrt
    simp [resolvePath, hrt, JSRegExp.jsToString]

/-- C5 witness: the round-trip scenario - a route carrying the string
template /orders/:id (in spec.url, spec.path being absent) resolves to
that template, whatever the raw request path was. -/
theorem C5_witness :
    resolvePath (some (Route.mk none (some (.str "/orders/:id")))) "/orders/7" =
      some "/orders/:id" :=
  (C5_resolved_path "/orders/7").2.1
    (Route.mk none (some (.str "/orders/:id"))) "/orders/:id" rfl

/-- C6: the exclusion decision is computed at most once per path: any
call after a successful call returns that call's result and leaves the
cache unchanged, and this holds even if the configured predicate
changed its behavior (non-determinism) between the two calls. -/
theorem C6_decision_cached (p : String) :
    (∀ (ex : ExcludeVal) (c : Cache) (r : Bool) (c' : Cache),
        shouldMeasure p ex c = .ok (r, c') →
        shouldMeasure p ex c' = .ok (r, c')) ∧
    (∀ (f₁ f₂ : String → Except String Bool) (c : Cache) (r : Bool) (c' : Cache),
        shouldMeasure p (.func f₁) c = .ok (r, c') →
        shouldMeasure p (.func f₂) c' = .ok (r, c')) := by
  constructor
  · intro ex c r c' h
    cases ht : ex.truthy with
    | true =>
      exact shouldMeasure_ok_spread p ex ex c r c' ht ht h
    | false =>
      rw [shouldMeasure_falsy p ex c ht] at h
      simp only [Except.ok.injEq, Prod.mk.injEq] at h
      obtain ⟨hr, hc⟩ := h
      subst hc
      subst hr
      exact shouldMeasure_falsy p ex c ht
  · intro f₁ f₂ c r c' h
    exact shouldMeasure_ok_spread p (.func f₁) (.func f₂) c r c' rfl rfl h

/-- C6 witness: the first call with an always-true predicate caches the
exclusion of /a; the second call returns that cached decision although
its predicate now throws, so the predicate was not re-evaluated. -/
theorem C6_witness :
    shouldMeasure "/a" (.func (fun _ => .error "nondet")) [("/a", true)] =
      .ok (false, [("/a", true)]) :=
  (C6_decision_cached "/a").2 (fun _ => .ok true) (fun _ => .error "nondet")
    [] false [("/a", true)] rfl

/-- The validator accepts exactly the configurations satisfying the
amended acceptance condition. -/
theorem validateConfig_ok_eq (m : MergedConfig) :
    exceptOk (validateConfig m) = validationOk m := by
  obtain ⟨route, exclude, bl, dl, mp⟩ := m
  cases route <;> cases bl <;> cases dl <;>
    simp only [validateConfig, validationOk] <;>
    (repeat' split) <;>
    simp_all [exceptOk] <;>
    (cases htr : (normalizeExclude exclude).truthy with
      | false => exact Or.inl rfl
      | true => exact Or.inr (by simp_all))

/-- When the configured predicate (if any) does not throw on this path,
`shouldMeasure` succeeds and its only effect is adding at most this
path's decision to the cache. -/
theorem shouldMeasure_ok_of_no_throw (p : String) (ex : ExcludeVal) (c : Cache)
    (h : ∀ f, ex = .func f → ∃ b, f p = .ok b) :
    ∃ (r : Bool) (c' : Cache),
      shouldMeasure p ex c = .ok (r, c') ∧ (c' = c ∨ c' = (p, !r) :: c) := by
  cases ht : ex.truthy with
  | false =>
    exact ⟨true, c, shouldMeasure_falsy p ex c ht, Or.inl rfl⟩
  | true =>
    cases hl : c.lookup p with
    | some cached =>
      exact ⟨!cached, c, shouldMeasure_hit p ex c cached ht hl, Or.inl rfl⟩
    | none =>
      cases hx : excludedEval ex p with
      | ok e =>
        refine ⟨!e, (p, e) :: c, shouldMeasure_miss_ok p ex c e ht hl hx, Or.inr ?_⟩
        simp
      | error s =>
        exfalso
        cases ex with
        | undef => exact Except.noConfusion hx
        | str s' => exact Except.noConfusion hx
        | arr l => exact Except.noConfusion hx
        | regexp r => exact Except.noConfusion hx
        | otherTruthy => exact Except.noConfusion hx
        | otherFalsy => exact Except.noConfusion hx
        | func f =>
          obtain ⟨b, hb⟩ := h f rfl
          have hx' : f p = .error s := hx
          rw [hb] at hx'
          exact Except.noConfusion hx'

/-- C7: the status_code label recorded by the response-finish callbacks
equals the response's final status code whenever the response object is
there and carries a status code (including a status code of 0, which the
truthiness test sends to the same fallback value 0), and 0 when the
response object or its status code is missing; the counter labels carry
the same value, and the computation is total, so the degraded case never
throws. -/
theorem C7_status_code_label :
    (∀ (n : Nat), finishStatusCode (some (FinishResponse.mk (some n))) = n) ∧
    finishStatusCode none = 0 ∧
    finishStatusCode (some (FinishResponse.mk none)) = 0 ∧
    (∀ (path method : String) (res2 : Option FinishResponse),
        (counterFinishLabels path method res2).status_code = finishStatusCode res2) := by
  refine ⟨?_, rfl, rfl, ?_⟩
  · intro n
    cases n with
    | zero => rfl
    | succ k => simp [finishStatusCode]
  · intro path method res2
    rfl

/-- C8 counterexample: the claim says a configuration whose `exclude` is
present but not an array, pattern, or function is rejected with a
TypeError.  But the shape check at line 124 is guarded by the truthiness
of `config.exclude`, so a present-but-falsy value of another shape (null,
false, 0) is accepted: at the concrete input below, `exclude` is present
and not an array, pattern or function, yet construction succeeds. -/
theorem C8_counterexample :
    excludePresentNotShape { exclude := some .otherFalsy } = true ∧
    checkConfig { exclude := some .otherFalsy } =
      .ok { route := .str "/metrics", exclude := .otherFalsy,
            promBlacklist := .arr [], promDefaultDelay := .num 1000,
            maxPathsToCount := 100 } := by
  exact ⟨rfl, rfl⟩

/-- C8 amended: construction validates eagerly, and accepts exactly when
the route option is a non-empty string or exactly false, the exclude
option (after string normalization) is either falsy or an
array/pattern/function, promBlacklist is an array, and promDefaultDelay
is a number at least 1000; and a request processed under an accepted
configuration throws no validation error - the handler succeeds whenever
a path is resolved and the configured predicate, if any, does not throw
on it. -/
theorem C8_validation (u : UserConfig) :
    exceptOk (checkConfig u) = validationOk (mergeConfig u) ∧
    (∀ cfg, checkConfig u = .ok cfg →
      ∀ (pl : PathLimit) (routeResult : Option Route) (rawPath path : String)
        (c : Cache),
        resolvePath routeResult rawPath = some path →
        (∀ f, cfg.exclude = .func f → ∃ b, f path = .ok b) →
        ∃ res, handleRequest cfg.exclude initMetrics pl routeResult rawPath c =
          .ok res) := by
  constructor
  · exact validateConfig_ok_eq (mergeConfig u)
  · intro cfg hcfg pl routeResult rawPath path c hres hnothrow
    obtain ⟨r, c', hsm, _⟩ :=
      shouldMeasure_ok_of_no_throw path cfg.exclude c hnothrow
    unfold handleRequest
    simp only [hres, hsm]
    cases r
    · exact ⟨_, rfl⟩
    · exact ⟨_, rfl⟩

/-- C8 witness: the empty user configuration is accepted and a request
under it is handled without error. -/
theorem C8_witness :
    exceptOk (checkConfig {}) = validationOk (mergeConfig {}) ∧
    ∃ res, handleRequest .undef initMetrics (PathLimit.init 100) none "/x" [] =
      .ok res := by
  refine ⟨(C8_validation {}).1, ?_⟩
  exact (C8_validation {}).2
    { route := .str "/metrics", exclude := .undef, promBlacklist := .arr [],
      promDefaultDelay := .num 1000, maxPathsToCount := 100 }
    rfl (PathLimit.init 100) none "/x" "/x" [] rfl (fun _ hf => nomatch hf)

/-- C9 counterexample: the claim says shouldMeasure never throws even
when the configured predicate itself throws; but the call at line 88 has
no try/catch, so a throwing predicate propagates out of shouldMeasure at
the concrete input below. -/
theorem C9_counterexample :
    shouldMeasure "/x" (.func (fun _ => .error "boom")) [] = .error "boom" := by
  rfl

/-- C9 amended: for every path and validly-configured exclusion,
shouldMeasure returns a boolean and mutates nothing but the cache
(adding at most the queried path's decision), provided the configured
predicate, if any, does not throw when applied to the path. -/
theorem C9_no_throw_when_predicate_total (p : String) (ex : ExcludeVal) (c : Cache)
    (h : ∀ f, ex = .func f → ∃ b, f p = .ok b) :
    ∃ (r : Bool) (c' : Cache),
      shouldMeasure p ex c = .ok (r, c') ∧ (c' = c ∨ c' = (p, !r) :: c) :=
  shouldMeasure_ok_of_no_throw p ex c h

/-- C9 witness: a regular-expression exclusion on a fresh cache - the
hypothesis is discharged since the configuration is not a predicate. -/
theorem C9_witness :
    ∃ (r : Bool) (c' : Cache),
      shouldMeasure "/a" (.regexp (JSRegExp.mk "a" "" (fun s => s == "/a"))) [] =
        .ok (r, c') ∧ ((c' = ([] : Cache)) ∨ c' = [("/a", !r)]) :=
  C9_no_throw_when_predicate_total "/a"
    (.regexp (JSRegExp.mk "a" "" (fun s => s == "/a"))) []
    (fun _ hf => nomatch hf)

/-- C10: the exclusion cache is module-level state: every call to
preMiddleware reassigns it to an empty object (even when construction
then fails), discarding all previously cached decisions; and until such
a reassignment the cache is shared across instances - a decision cached
during a call under one instance's exclusion configuration is returned
by a call under another instance's different configuration. -/
theorem C10_module_cache_shared_and_reset :
    (∀ (serverOk : Bool) (u : UserConfig) (c : Cache),
        (preMiddleware serverOk u c).1 = []) ∧
    (∀ (p : String) (ex₁ ex₂ : ExcludeVal) (c c' : Cache) (r : Bool),
        ex₁.truthy = true → ex₂.truthy = true →
        shouldMeasure p ex₁ c = .ok (r, c') →
        shouldMeasure p ex₂ c' = .ok (r, c')) := by
  constructor
  · intro serverOk u c
    cases serverOk with
    | false => rfl
    | true =>
      cases hc : checkConfig u with
      | error e => simp [preMiddleware, hc]
      | ok cfg => simp [preMiddleware, hc]
  · intro p ex₁ ex₂ c c' r ht₁ ht₂ h
    exact shouldMeasure_ok_spread p ex₁ ex₂ c r c' ht₁ ht₂ h

/-- C10 witness: a construction call resets a non-empty module cache, and
a decision cached under a literal-list configuration is returned under a
regular-expression configuration. -/
theorem C10_witness :
    (preMiddleware true {} [("/cached", true)]).1 = [] ∧
    shouldMeasure "/p" (.regexp (JSRegExp.mk "z" "" (fun _ => false)))
        [("/p", true)] = .ok (false, [("/p", true)]) := by
  constructor
  · exact C10_module_cache_shared_and_reset.1 true {} [("/cached", true)]
  · exact C10_module_cache_shared_and_reset.2 "/p" (.arr ["/p"])
      (.regexp (JSRegExp.mk "z" "" (fun _ => false))) [] [("/p", true)] false
      rfl rfl rfl

end RestifyPromBundle
